import Mathlib

/-!
Verification development for the `sqs_queue` Ansible module, which reconciles
an AWS SQS queue against a declared desired state.  The repository holds two
variants of the module:

* `src/sqs_queue/sqs_queue.py` (the newer, boto3-complete variant), embedded
  below in namespace `V2`;
* `src/sqs_queue.py` (the older variant, whose create/delete logic is partly
  commented out), embedded in namespace `V1`.

The embedding is shallow: Python dict/JSON values become the inductive `Json`
(with mutual `JsonSeq`/`JsonMap` for arrays and objects, so that every
function is structurally recursive and kernel-computable),
`json.dumps(..., sort_keys=True)` becomes `pydumps`, `json.loads` becomes the
executable fuel-based `loads`, and the boto3 connection is replaced by an
explicit remote-state value (an association list of queue-name to attribute
map) threaded through each function, together with a trace of the remote calls
issued.  Uncaught Python exceptions are explicit outcome constructors.

Modelling notes on scope:
* JSON numbers are modelled as integers; floating-point literals are out of
  scope (none of the module's attributes carries a float).
* String escaping in the serializer covers quote and backslash, the cases the
  module's attribute documents exercise; `Char.toLower` (ASCII, exactly what
  Python's `str.lower` does on the ASCII attribute strings involved) models
  `.lower()`.
-/

mutual

/-- A JSON value as produced by Python's `json` module on the module's inputs;
numbers are integers. -/
inductive Json where
  | null
  | bool (b : Bool)
  | num (n : Int)
  | str (s : String)
  | arr (elems : JsonSeq)
  | obj (kvs : JsonMap)

/-- The contents of a JSON array. -/
inductive JsonSeq where
  | nil
  | cons (hd : Json) (tl : JsonSeq)

/-- The contents of a JSON object: key/value pairs in insertion order
(a Python dict). -/
inductive JsonMap where
  | nil
  | cons (key : String) (val : Json) (tl : JsonMap)

end

/-- Build an object map from a list of pairs. -/
def JsonMap.ofList : List (String × Json) → JsonMap
  | [] => .nil
  | (k, v) :: rest => .cons k v (JsonMap.ofList rest)

/-- Build an array from a list of values. -/
def JsonSeq.ofList : List Json → JsonSeq
  | [] => .nil
  | j :: rest => .cons j (JsonSeq.ofList rest)

/-- A JSON object literal from a pair list. -/
def Json.objOf (kvs : List (String × Json)) : Json :=
  .obj (JsonMap.ofList kvs)

/-- A JSON array literal from a value list. -/
def Json.arrOf (elems : List Json) : Json :=
  .arr (JsonSeq.ofList elems)

/-- Whether an object map is empty. -/
def JsonMap.isNil : JsonMap → Bool
  | .nil => true
  | .cons _ _ _ => false

/-- Whether an array is empty. -/
def JsonSeq.isNil : JsonSeq → Bool
  | .nil => true
  | .cons _ _ => false

/-- Escape one character the way `json.dumps` does for the characters the
module's documents contain (quote and backslash). -/
def escapeChar (c : Char) : String :=
  if c = '\"' then "\\\"" else if c = '\\' then "\\\\" else String.singleton c

/-- Escape a string for JSON serialization. -/
def escapeString (s : String) : String :=
  String.join (s.toList.map escapeChar)

/-- Lexicographic (code-point) order on char lists, the order Python uses to
compare strings. -/
def charsLe : List Char → List Char → Bool
  | [], _ => true
  | _ :: _, [] => false
  | a :: as, b :: bs =>
    if a < b then true else if b < a then false else charsLe as bs

/-- Python string `<=` (code-point lexicographic). -/
def strLe (a b : String) : Bool :=
  charsLe a.toList b.toList

/-- Insert a key/value pair into a key-sorted object map, keeping it sorted
by key (code-point order, as Python's `sort_keys=True` sorts). -/
def JsonMap.insertByKey (k : String) (v : Json) : JsonMap → JsonMap
  | .nil => .cons k v .nil
  | .cons k' v' tl =>
    if strLe k k' then .cons k v (.cons k' v' tl) else .cons k' v' (insertByKey k v tl)

/-- Sort an object map by key (insertion sort). -/
def JsonMap.sortByKey : JsonMap → JsonMap
  | .nil => .nil
  | .cons k v tl => (sortByKey tl).insertByKey k v

mutual

/-- Recursively sort every object's keys.  `json.dumps(v, sort_keys=True)`
serializes `v` with keys sorted at every level, i.e. it serializes
`canonSort v` in plain order. -/
def canonSort : Json → Json
  | .null => .null
  | .bool b => .bool b
  | .num n => .num n
  | .str s => .str s
  | .arr elems => .arr (canonSortSeq elems)
  | .obj kvs => .obj (canonSortMap kvs).sortByKey

/-- `canonSort` on each array element. -/
def canonSortSeq : JsonSeq → JsonSeq
  | .nil => .nil
  | .cons j tl => .cons (canonSort j) (canonSortSeq tl)

/-- `canonSort` on each object value. -/
def canonSortMap : JsonMap → JsonMap
  | .nil => .nil
  | .cons k v tl => .cons k (canonSort v) (canonSortMap tl)

end

mutual

/-- Serialize a JSON value in plain (insertion) order with Python's default
separators: `", "` between items and `": "` after keys. -/
def dumpsPlain : Json → String
  | .null => "null"
  | .bool b => if b then "true" else "false"
  | .num n => toString n
  | .str s => "\"" ++ escapeString s ++ "\""
  | .arr elems => "[" ++ String.intercalate ", " (dumpsSeq elems) ++ "]"
  | .obj kvs => "\x7b" ++ String.intercalate ", " (dumpsMap kvs) ++ "\x7d"

/-- Serialized array elements. -/
def dumpsSeq : JsonSeq → List String
  | .nil => []
  | .cons j tl => dumpsPlain j :: dumpsSeq tl

/-- Serialized object members. -/
def dumpsMap : JsonMap → List String
  | .nil => []
  | .cons k v tl => ("\"" ++ escapeString k ++ "\": " ++ dumpsPlain v) :: dumpsMap tl

end

/-- `json.dumps(v, sort_keys=True)` with Python's default separators. -/
def pydumps (j : Json) : String :=
  dumpsPlain (canonSort j)

/-- Whether an object map holds a key. -/
def JsonMap.hasKey (k : String) : JsonMap → Bool
  | .nil => false
  | .cons k' _ tl => k' == k || hasKey k tl

/-- Python dict insertion: an existing key keeps its position and gets the
new value, a new key is appended.  Used for duplicate object keys during
parsing (`json.loads` builds a dict, so the last value wins). -/
def JsonMap.dictInsert : JsonMap → String → Json → JsonMap
  | .nil, k, v => .cons k v .nil
  | .cons k' v' tl, k, v =>
    if k' == k then .cons k v tl else .cons k' v' (tl.dictInsert k v)

/-- JSON insignificant whitespace. -/
def isJsonWs (c : Char) : Bool :=
  c == ' ' || c == '\t' || c == '\n' || c == '\r'

/-- Drop leading JSON whitespace. -/
def skipWs : List Char → List Char
  | [] => []
  | c :: cs => if isJsonWs c then skipWs cs else c :: cs

/-- Parse the body of a JSON string literal (after the opening quote),
supporting the escapes `\"` and `\\`. -/
def parseStringBody : Nat → List Char → Option (String × List Char)
  | 0, _ => Option.none
  | _, [] => Option.none
  | fuel + 1, c :: cs =>
    if c == '\"' then some ("", cs)
    else if c == '\\' then
      match cs with
      | d :: cs' =>
        if d == '\"' || d == '\\' then
          (parseStringBody fuel cs').map (fun r => (String.singleton d ++ r.1, r.2))
        else
          Option.none
      | [] => Option.none
    else
      (parseStringBody fuel cs).map (fun r => (String.singleton c ++ r.1, r.2))

/-- Consume a maximal run of decimal digits: value, digit count, rest. -/
def takeDigits (acc : Nat) : List Char → (Nat × Nat × List Char)
  | [] => (acc, 0, [])
  | c :: cs =>
    if c.isDigit then
      let r := takeDigits (acc * 10 + (c.toNat - '0'.toNat)) cs
      (r.1, r.2.1 + 1, r.2.2)
    else
      (acc, 0, c :: cs)

mutual

/-- Fuel-based JSON value parser (integer numbers only). -/
def parseJsonVal : Nat → List Char → Option (Json × List Char)
  | 0, _ => Option.none
  | fuel + 1, s =>
    match skipWs s with
    | 'n' :: 'u' :: 'l' :: 'l' :: rest => some (.null, rest)
    | 't' :: 'r' :: 'u' :: 'e' :: rest => some (.bool true, rest)
    | 'f' :: 'a' :: 'l' :: 's' :: 'e' :: rest => some (.bool false, rest)
    | '\"' :: rest => (parseStringBody (fuel + 1) rest).map (fun r => (.str r.1, r.2))
    | '[' :: rest =>
      (match skipWs rest with
       | ']' :: rest' => some (.arr .nil, rest')
       | other => parseArrElems fuel other [])
    | '\x7b' :: rest =>
      (match skipWs rest with
       | '\x7d' :: rest' => some (.obj .nil, rest')
       | other => parseObjElems fuel other .nil)
    | '-' :: rest =>
      (match takeDigits 0 rest with
       | (_, 0, _) => Option.none
       | (n, _ + 1, rest') => some (.num (-(Int.ofNat n)), rest'))
    | c :: rest =>
      if c.isDigit then
        (match takeDigits 0 (c :: rest) with
         | (_, 0, _) => Option.none
         | (n, _ + 1, rest') => some (.num (Int.ofNat n), rest'))
      else
        Option.none
    | [] => Option.none

/-- Parse the elements of a non-empty JSON array. -/
def parseArrElems : Nat → List Char → List Json → Option (Json × List Char)
  | 0, _, _ => Option.none
  | fuel + 1, s, acc =>
    match parseJsonVal fuel s with
    | Option.none => Option.none
    | some (v, rest) =>
      match skipWs rest with
      | ',' :: rest' => parseArrElems fuel rest' (acc ++ [v])
      | ']' :: rest' => some (.arr (JsonSeq.ofList (acc ++ [v])), rest')
      | _ => Option.none

/-- Parse the members of a non-empty JSON object (dict semantics for
duplicate keys: last value wins). -/
def parseObjElems : Nat → List Char → JsonMap → Option (Json × List Char)
  | 0, _, _ => Option.none
  | fuel + 1, s, acc =>
    match skipWs s with
    | '\"' :: rest =>
      (match parseStringBody (fuel + 1) rest with
       | Option.none => Option.none
       | some (k, rest') =>
         match skipWs rest' with
         | ':' :: rest2 =>
           (match parseJsonVal fuel rest2 with
            | Option.none => Option.none
            | some (v, rest3) =>
              match skipWs rest3 with
              | ',' :: rest4 => parseObjElems fuel rest4 (acc.dictInsert k v)
              | '\x7d' :: rest4 => some (.obj (acc.dictInsert k v), rest4)
              | _ => Option.none)
         | _ => Option.none)
    | _ => Option.none

end

/-- `json.loads`: parse a complete JSON document, rejecting trailing garbage.
Returns `none` where Python raises `json.JSONDecodeError`. -/
def loads (s : String) : Option Json :=
  match parseJsonVal (2 * s.length + 8) s.toList with
  | some (j, rest) => if skipWs rest == [] then some j else Option.none
  | Option.none => Option.none


/-- A Python value as passed for one attribute: `None`, an `int`, a `bool`,
or a JSON-serializable `dict` (the `policy` / `redrive_policy` parameters). -/
inductive PyVal where
  | pyNone
  | pyInt (n : Int)
  | pyBool (b : Bool)
  | pyDict (j : Json)

/-- Python truthiness of a JSON value (empty dict/list/string and 0 are falsy). -/
def Json.pyTruthy : Json → Bool
  | .null => false
  | .bool b => b
  | .num n => n != 0
  | .str s => s != ""
  | .arr elems => !elems.isNil
  | .obj kvs => !kvs.isNil

/-- Python truthiness (`bool(value)`). -/
def PyVal.truthy : PyVal → Bool
  | .pyNone => false
  | .pyInt n => n != 0
  | .pyBool b => b
  | .pyDict j => j.pyTruthy

/-- Python `value != 0`.  Note `False == 0` and `True == 1` in Python, while
`None` and containers are unequal to `0`. -/
def PyVal.neZero : PyVal → Bool
  | .pyNone => true
  | .pyInt n => n != 0
  | .pyBool b => b
  | .pyDict _ => true

/-- Single-quote character, used by Python's `repr` of strings. -/
def squote : String := String.singleton (Char.ofNat 39)

mutual

/-- Python `str`/`repr` of a JSON-like value (dict printing with single
quotes); only reachable for `str(dict)`, which the module never hits on its
own call paths but which keeps the embedding total and faithful. -/
def pyRepr : Json → String
  | .null => "None"
  | .bool b => if b then "True" else "False"
  | .num n => toString n
  | .str s => squote ++ s ++ squote
  | .arr elems => "[" ++ String.intercalate ", " (pyReprSeq elems) ++ "]"
  | .obj kvs => "\x7b" ++ String.intercalate ", " (pyReprMap kvs) ++ "\x7d"

/-- `repr` of each array element. -/
def pyReprSeq : JsonSeq → List String
  | .nil => []
  | .cons j tl => pyRepr j :: pyReprSeq tl

/-- `repr` of each dict member. -/
def pyReprMap : JsonMap → List String
  | .nil => []
  | .cons k v tl => (squote ++ k ++ squote ++ ": " ++ pyRepr v) :: pyReprMap tl

end

/-- Python `str(value)` for the values the module passes to the comparator. -/
def PyVal.pyStr : PyVal → String
  | .pyNone => "None"
  | .pyInt n => toString n
  | .pyBool b => if b then "True" else "False"
  | .pyDict j => pyRepr j

/-- The JSON value `json.dumps` sees for a given Python value. -/
def PyVal.jsonOf : PyVal → Json
  | .pyNone => .null
  | .pyInt n => .num n
  | .pyBool b => .bool b
  | .pyDict j => j

/-- Python `str.lower()` (ASCII, which covers every string the module
compares). -/
def pyLower (s : String) : String :=
  String.mk (s.toList.map Char.toLower)

/-- One remote (boto3 SQS client) call, as recorded in the call trace. -/
inductive Eff where
  | getQueueUrl (name : String)
  | createQueue (name : String) (fifo : Bool)
  | getQueueAttributes (queueUrl : String) (names : List String)
  | setQueueAttributes (queueUrl : String) (attr : String) (value : String)
  | deleteQueue (queueUrl : String)
deriving Repr, DecidableEq

/-- Whether a remote call mutates remote state. -/
def Eff.isWrite : Eff → Bool
  | .createQueue _ _ => true
  | .setQueueAttributes _ _ _ => true
  | .deleteQueue _ => true
  | _ => false

/-- The attribute map of one queue, as raw strings (AWS returns every
attribute as a string). -/
abbrev Attrs := List (String × String)

/-- Remote state: queue name to attribute map.  The model uses the queue
name as its `QueueUrl` handle. -/
abbrev Remote := List (String × Attrs)

/-- Update an association list at a key (dict-style: replace or append). -/
def assocUpdate {β : Type} (l : List (String × β)) (k : String) (v : β) :
    List (String × β) :=
  if l.any (fun kv => kv.1 == k) then
    l.map (fun kv => if kv.1 == k then (k, v) else kv)
  else
    l ++ [(k, v)]

/-- Remove a key from an association list. -/
def assocRemove {β : Type} (l : List (String × β)) (k : String) :
    List (String × β) :=
  l.filter (fun kv => kv.1 != k)

/-- The module's parameters (from `main`'s `argument_spec`); connection and
region parameters are out of scope. -/
structure Params where
  state : String := "present"
  name : String
  queue_type : String := "standard"
  fifo_content_based_deduplication : Bool := false
  default_visibility_timeout : Option Int := Option.none
  message_retention_period : Option Int := Option.none
  maximum_message_size : Option Int := Option.none
  delivery_delay : Option Int := Option.none
  receive_message_wait_time : Option Int := Option.none
  policy : Option Json := Option.none
  redrive_policy : Option Json := Option.none

/-- `module.params.get` of an optional int parameter, as a Python value. -/
def optIntVal : Option Int → PyVal
  | Option.none => .pyNone
  | some n => .pyInt n

/-- `module.params.get` of an optional dict parameter, as a Python value. -/
def optJsonVal : Option Json → PyVal
  | Option.none => .pyNone
  | some j => .pyDict j

/-- The fields of the `result` dict that the module computes (the dict also
echoes the input parameters, which carry no information).  A field is `none`
when the corresponding key is never written into the dict. -/
structure ModuleResult where
  name : String
  changed : Option Bool := Option.none
  queue_arn : Option String := Option.none
  default_visibility_timeout : Option String := Option.none
  message_retention_period : Option String := Option.none
  maximum_message_size : Option String := Option.none
  delivery_delay : Option String := Option.none
  receive_message_wait_time : Option String := Option.none
  fifo_content_based_deduplication : Option String := Option.none
deriving Repr, DecidableEq

/-- How one module invocation ends.  `crashed` is an uncaught Python
exception (`json.JSONDecodeError`, `KeyError`); `nameError` is the uncaught
`NameError` from calling an undefined function; `noDispatch` is `main`
falling through both state branches. -/
inductive Outcome where
  | exitJson (r : ModuleResult)
  | failJson (r : ModuleResult)
  | crashed
  | nameError
  | noDispatch
deriving Repr, DecidableEq

/-- Return value of one `set_queue_attribute` call: the returned boolean, or
an uncaught `json.JSONDecodeError` escaping from `json.loads`. -/
inductive SetAttrResult where
  | ok (changed : Bool)
  | jsonError
deriving Repr, DecidableEq

namespace V2

/-!
Embedding of `src/sqs_queue/sqs_queue.py` (the boto3-complete variant).
-/

/-- The comparison-and-write tail shared by both branches of
`set_queue_attribute` (lines 314-319): compare
`str(value).lower() != existing_value`; on a difference and not in check
mode, call `set_queue_attributes` with the un-lowercased `str(value)`. -/
def compareAndSet (attrs : Attrs) (queue_url attr : String)
    (valueStr existing_value : String) (check_mode : Bool) (eff0 : List Eff) :
    SetAttrResult × Attrs × List Eff :=
  if pyLower valueStr != existing_value then
    if check_mode then
      (.ok true, attrs, eff0)
    else
      (.ok true, assocUpdate attrs attr valueStr,
        eff0 ++ [.setQueueAttributes queue_url attr valueStr])
  else
    (.ok false, attrs, eff0)

/-- `set_queue_attribute` (lines 298-319).  `attrs` is the attribute map of
the queue behind `queue_url`; the read
`get_queue_attributes(...)['Attributes'][attr]` raises for a missing
attribute and the bare `except` turns that into `''`.  For `Policy` and
`RedrivePolicy` the desired dict is serialized with sorted keys, and a
non-empty existing raw string goes through `json.loads` — whose
`JSONDecodeError` is *not* caught anywhere, hence the `jsonError` result. -/
def set_queue_attribute (attrs : Attrs) (queue_url attr : String) (value : PyVal)
    (check_mode : Bool) : SetAttrResult × Attrs × List Eff :=
  if !value.truthy && value.neZero then
    (.ok false, attrs, [])
  else
    let existing_value := (List.lookup attr attrs).getD ""
    let eff0 : List Eff := [.getQueueAttributes queue_url [attr]]
    if attr == "Policy" || attr == "RedrivePolicy" then
      let valueStr := pydumps value.jsonOf
      if existing_value != "" then
        match loads existing_value with
        | Option.none => (.jsonError, attrs, eff0)
        | some j => compareAndSet attrs queue_url attr valueStr (pydumps j) check_mode eff0
      else
        compareAndSet attrs queue_url attr valueStr existing_value check_mode eff0
    else
      compareAndSet attrs queue_url attr value.pyStr existing_value check_mode eff0

end V2

/-- One step of `update_sqs_queue`:
`changed = set_queue_attribute(...) or changed`, with an uncaught exception
from the step aborting the remaining steps (`Except.error` carries the
attribute map and trace at the point of the crash).  Parameterized by the
per-attribute function so both variants share it. -/
def updStep
    (setFn : Attrs → String → String → PyVal → Bool → SetAttrResult × Attrs × List Eff)
    (queue_url : String) (check_mode : Bool)
    (st : Bool × Attrs × List Eff) (kv : String × PyVal) :
    Except (Attrs × List Eff) (Bool × Attrs × List Eff) :=
  match setFn st.2.1 queue_url kv.1 kv.2 check_mode with
  | (.ok c, attrs1, effs) => .ok (c || st.1, attrs1, st.2.2 ++ effs)
  | (.jsonError, attrs1, effs) => .error (attrs1, st.2.2 ++ effs)

namespace V2

/-- `update_sqs_queue` (lines 266-295): the fixed catalog of eight managed
attributes, synchronized in source order with the overall changed flag
accumulated by `or`. -/
def update_sqs_queue (attrs : Attrs) (queue_url : String) (check_mode : Bool)
    (default_visibility_timeout message_retention_period maximum_message_size
     delivery_delay receive_message_wait_time policy redrive_policy
     fifo_content_based_deduplication : PyVal) :
    Except (Attrs × List Eff) (Bool × Attrs × List Eff) :=
  List.foldlM (updStep set_queue_attribute queue_url check_mode)
    (false, attrs, [])
    [("VisibilityTimeout", default_visibility_timeout),
     ("MessageRetentionPeriod", message_retention_period),
     ("MaximumMessageSize", maximum_message_size),
     ("DelaySeconds", delivery_delay),
     ("ReceiveMessageWaitTimeSeconds", receive_message_wait_time),
     ("Policy", policy),
     ("RedrivePolicy", redrive_policy),
     ("ContentBasedDeduplication", fifo_content_based_deduplication)]

/-- The attributes a freshly created SQS queue carries, per the AWS service
defaults (the module's own RETURN documentation samples the same values:
visibility timeout 30, retention 345600, max size 262144, delay 0, receive
wait 0).  `Policy`/`RedrivePolicy` are absent until set. -/
def defaultAttrs (queue_name : String) (fifo : Bool) : Attrs :=
  [("QueueArn", "arn:aws:sqs:region:acct:" ++ queue_name),
   ("VisibilityTimeout", "30"),
   ("MessageRetentionPeriod", "345600"),
   ("MaximumMessageSize", "262144"),
   ("DelaySeconds", "0"),
   ("ReceiveMessageWaitTimeSeconds", "0")]
  ++ (if fifo then [("FifoQueue", "true"), ("ContentBasedDeduplication", "false")] else [])

/-- The final re-read of `create_or_update_sqs_queue` (lines 248-257), only
reached when not in check mode: `get_queue_attributes(AttributeNames=['All'])`
followed by dict indexing of six keys (seven for FIFO).  A missing queue
raises `ClientError` (caught, `fail_json`); a missing key raises `KeyError`
(uncaught). -/
def finalRead (remote : Remote) (queue_name : String) (changed : Option Bool)
    (queue_type : String) (effs : List Eff) : Outcome × Remote × List Eff :=
  let effs := effs ++ [Eff.getQueueAttributes queue_name ["All"]]
  match List.lookup queue_name remote with
  | Option.none => (.failJson { name := queue_name, changed := changed }, remote, effs)
  | some attrs =>
    match List.lookup "QueueArn" attrs, List.lookup "VisibilityTimeout" attrs,
          List.lookup "MessageRetentionPeriod" attrs, List.lookup "MaximumMessageSize" attrs,
          List.lookup "DelaySeconds" attrs, List.lookup "ReceiveMessageWaitTimeSeconds" attrs with
    | some arn, some vt, some mrp, some mms, some dd, some rmwt =>
      if queue_type == "fifo" then
        match List.lookup "ContentBasedDeduplication" attrs with
        | some cbd =>
          (.exitJson { name := queue_name, changed := changed, queue_arn := some arn,
                       default_visibility_timeout := some vt,
                       message_retention_period := some mrp,
                       maximum_message_size := some mms,
                       delivery_delay := some dd,
                       receive_message_wait_time := some rmwt,
                       fifo_content_based_deduplication := some cbd }, remote, effs)
        | Option.none => (.crashed, remote, effs)
      else
        (.exitJson { name := queue_name, changed := changed, queue_arn := some arn,
                     default_visibility_timeout := some vt,
                     message_retention_period := some mrp,
                     maximum_message_size := some mms,
                     delivery_delay := some dd,
                     receive_message_wait_time := some rmwt }, remote, effs)
    | _, _, _, _, _, _ => (.crashed, remote, effs)

/-- `create_or_update_sqs_queue` (lines 194-263).  A FIFO queue type appends
`.fifo` to the name unconditionally (line 212) and adds the deduplication
flag to the attribute dict; for a standard queue type `update_sqs_queue`
receives its default `None` for that attribute.  `get_queue_url` raises
`QueueDoesNotExist` (a `ClientError`) for a missing queue; here that is
swallowed by the inner bare `except`, leaving `existing_queue = False`.
In check mode with a missing queue, nothing sets `result['changed']` and the
module exits with no `changed` key. -/
def create_or_update_sqs_queue (remote : Remote) (p : Params) (check_mode : Bool) :
    Outcome × Remote × List Eff :=
  let queue_name := if p.queue_type == "fifo" then p.name ++ ".fifo" else p.name
  let dedupVal : PyVal :=
    if p.queue_type == "fifo" then .pyBool p.fifo_content_based_deduplication else .pyNone
  let dvt := optIntVal p.default_visibility_timeout
  let mrp := optIntVal p.message_retention_period
  let mms := optIntVal p.maximum_message_size
  let dd := optIntVal p.delivery_delay
  let rmwt := optIntVal p.receive_message_wait_time
  let pol := optJsonVal p.policy
  let rp := optJsonVal p.redrive_policy
  match List.lookup queue_name remote with
  | some attrs0 =>
    (match update_sqs_queue attrs0 queue_name check_mode dvt mrp mms dd rmwt pol rp dedupVal with
     | .error (attrs1, effs) =>
       (.crashed, assocUpdate remote queue_name attrs1, Eff.getQueueUrl queue_name :: effs)
     | .ok (changed, attrs1, effs) =>
       let remote1 := assocUpdate remote queue_name attrs1
       if check_mode then
         (.exitJson { name := queue_name, changed := some changed }, remote1,
           Eff.getQueueUrl queue_name :: effs)
       else
         finalRead remote1 queue_name (some changed) p.queue_type
           (Eff.getQueueUrl queue_name :: effs))
  | Option.none =>
    if check_mode then
      (.exitJson { name := queue_name }, remote, [Eff.getQueueUrl queue_name])
    else
      let fifo := p.queue_type == "fifo"
      let attrsNew := defaultAttrs queue_name fifo
      (match update_sqs_queue attrsNew queue_name check_mode dvt mrp mms dd rmwt pol rp dedupVal with
       | .error (attrs1, effs) =>
         (.crashed, assocUpdate remote queue_name attrs1,
           Eff.getQueueUrl queue_name :: Eff.createQueue queue_name fifo :: effs)
       | .ok (_, attrs1, effs) =>
         finalRead (assocUpdate remote queue_name attrs1) queue_name (some true) p.queue_type
           (Eff.getQueueUrl queue_name :: Eff.createQueue queue_name fifo :: effs))

/-- `delete_sqs_queue` (lines 322-344).  `get_queue_url` on a missing queue
raises `QueueDoesNotExist`, a subclass of `botocore.exceptions.ClientError`,
which the function's `except` clause catches and turns into `fail_json`; the
`else: result['changed'] = False` branch is unreachable because a successful
`get_queue_url` always returns a non-empty URL. -/
def delete_sqs_queue (remote : Remote) (p : Params) (check_mode : Bool) :
    Outcome × Remote × List Eff :=
  match List.lookup p.name remote with
  | Option.none =>
    (.failJson { name := p.name }, remote, [Eff.getQueueUrl p.name])
  | some _ =>
    if p.name != "" then
      if check_mode then
        (.exitJson { name := p.name, changed := some true }, remote, [Eff.getQueueUrl p.name])
      else
        (.exitJson { name := p.name, changed := some true },
          assocRemove remote p.name, [Eff.getQueueUrl p.name, Eff.deleteQueue p.name])
    else
      (.exitJson { name := p.name, changed := some false }, remote, [Eff.getQueueUrl p.name])

/-- The state dispatch at the end of `main` (lines 376-380); connection setup
is out of scope. -/
def main_dispatch (remote : Remote) (p : Params) (check_mode : Bool) :
    Outcome × Remote × List Eff :=
  if p.state == "present" then
    create_or_update_sqs_queue remote p check_mode
  else if p.state == "absent" then
    delete_sqs_queue remote p check_mode
  else
    (.noDispatch, remote, [])

end V2

namespace V1

/-!
Embedding of `src/sqs_queue.py` (the older variant).
-/

/-- The comparison-and-write tail of the older `set_queue_attribute`
(lines 263-268): identical to the newer variant except that the comparison
is `str(value) != existing_value`, with no `.lower()`. -/
def compareAndSet (attrs : Attrs) (queue_url attr : String)
    (valueStr existing_value : String) (check_mode : Bool) (eff0 : List Eff) :
    SetAttrResult × Attrs × List Eff :=
  if valueStr != existing_value then
    if check_mode then
      (.ok true, attrs, eff0)
    else
      (.ok true, assocUpdate attrs attr valueStr,
        eff0 ++ [.setQueueAttributes queue_url attr valueStr])
  else
    (.ok false, attrs, eff0)

/-- `set_queue_attribute` (lines 248-268).  The read
`get_queue_attributes(QueueUrl=..., AttributeNames=attribute)[attribute]`
always raises under boto3: `AttributeNames` is passed a bare string where a
list is required, and the top-level response dict has no key named after the
attribute (the values sit under `'Attributes'`), so the bare `except`
always fires and `existing_value` is always `''`.  Consequently the
`if existing_value:` reparse branch is dead and `json.loads` is never
reached in this variant. -/
def set_queue_attribute (attrs : Attrs) (queue_url attr : String) (value : PyVal)
    (check_mode : Bool) : SetAttrResult × Attrs × List Eff :=
  if !value.truthy && value.neZero then
    (.ok false, attrs, [])
  else
    let existing_value := ""
    let eff0 : List Eff := [.getQueueAttributes queue_url [attr]]
    if attr == "Policy" || attr == "RedrivePolicy" then
      let valueStr := pydumps value.jsonOf
      if existing_value != "" then
        match loads existing_value with
        | Option.none => (.jsonError, attrs, eff0)
        | some j => compareAndSet attrs queue_url attr valueStr (pydumps j) check_mode eff0
      else
        compareAndSet attrs queue_url attr valueStr existing_value check_mode eff0
    else
      compareAndSet attrs queue_url attr value.pyStr existing_value check_mode eff0

/-- `update_sqs_queue` (lines 219-245): seven managed attributes, no
content-based deduplication in this variant. -/
def update_sqs_queue (attrs : Attrs) (queue_url : String) (check_mode : Bool)
    (default_visibility_timeout message_retention_period maximum_message_size
     delivery_delay receive_message_wait_time policy redrive_policy : PyVal) :
    Except (Attrs × List Eff) (Bool × Attrs × List Eff) :=
  List.foldlM (updStep set_queue_attribute queue_url check_mode)
    (false, attrs, [])
    [("VisibilityTimeout", default_visibility_timeout),
     ("MessageRetentionPeriod", message_retention_period),
     ("MaximumMessageSize", maximum_message_size),
     ("DelaySeconds", delivery_delay),
     ("ReceiveMessageWaitTimeSeconds", receive_message_wait_time),
     ("Policy", policy),
     ("RedrivePolicy", redrive_policy)]

/-- `create_or_update_sqs_queue` (lines 161-216).  No FIFO name handling
(that block is commented out); `get_queue_url` on a missing queue raises
`QueueDoesNotExist`, a `ClientError`, which the `except` clause catches and
turns into `fail_json` — the create branch is commented out, so this variant
can only update existing queues.  When the queue exists, only
`result['changed']` is added to the result (the attribute re-read is
commented out). -/
def create_or_update_sqs_queue (remote : Remote) (p : Params) (check_mode : Bool) :
    Outcome × Remote × List Eff :=
  match List.lookup p.name remote with
  | Option.none =>
    (.failJson { name := p.name }, remote, [Eff.getQueueUrl p.name])
  | some attrs0 =>
    if p.name != "" then
      match update_sqs_queue attrs0 p.name check_mode
              (optIntVal p.default_visibility_timeout)
              (optIntVal p.message_retention_period)
              (optIntVal p.maximum_message_size)
              (optIntVal p.delivery_delay)
              (optIntVal p.receive_message_wait_time)
              (optJsonVal p.policy)
              (optJsonVal p.redrive_policy) with
      | .error (attrs1, effs) =>
        (.crashed, assocUpdate remote p.name attrs1, Eff.getQueueUrl p.name :: effs)
      | .ok (changed, attrs1, effs) =>
        (.exitJson { name := p.name, changed := some changed },
          assocUpdate remote p.name attrs1, Eff.getQueueUrl p.name :: effs)
    else
      (.exitJson { name := p.name }, remote, [Eff.getQueueUrl p.name])

/-- The state dispatch at the end of the older `main` (lines 325-329).  The
`state == 'absent'` branch calls `delete_sqs_queue`, a name that is bound
nowhere in this file — its definition (lines 271-293) is entirely commented
out and nothing imports it — so the call raises an uncaught `NameError`
before any remote queue operation. -/
def main_dispatch (remote : Remote) (p : Params) (check_mode : Bool) :
    Outcome × Remote × List Eff :=
  if p.state == "present" then
    create_or_update_sqs_queue remote p check_mode
  else if p.state == "absent" then
    (.nameError, remote, [])
  else
    (.noDispatch, remote, [])

end V1

/-- The remote-call trace of an `update_sqs_queue` run, crashed or not. -/
def updTrace : Except (Attrs × List Eff) (Bool × Attrs × List Eff) → List Eff
  | .ok (_, _, effs) => effs
  | .error (_, effs) => effs

/-- The attribute map after an `update_sqs_queue` run, crashed or not. -/
def updAttrs : Except (Attrs × List Eff) (Bool × Attrs × List Eff) → Attrs
  | .ok (_, attrs, _) => attrs
  | .error (attrs, _) => attrs

/-- The returned changed flag of an `update_sqs_queue` run (`none` on a
crash). -/
def updChanged : Except (Attrs × List Eff) (Bool × Attrs × List Eff) → Option Bool
  | .ok (c, _, _) => some c
  | .error _ => Option.none

/-- The desired redrive policy used in the concrete reconciliation runs:
`redrive_policy = dict(maxReceiveCount=5)`. -/
def rpDesired : Json := Json.objOf [("maxReceiveCount", .num 5)]

/-- One synchronization pass over a queue's attributes that desires only the
redrive policy (not in check mode), exactly as `update_sqs_queue` runs it. -/
def updOnce (attrs : Attrs) : Except (Attrs × List Eff) (Bool × Attrs × List Eff) :=
  V2.update_sqs_queue attrs "u" false .pyNone .pyNone .pyNone .pyNone .pyNone .pyNone
    (.pyDict rpDesired) .pyNone

/-- In check mode, one `set_queue_attribute` call (newer variant) leaves the
attribute map unchanged and issues no mutating remote call. -/
theorem set_cm_v2 (attrs : Attrs) (u a : String) (v : PyVal) :
    (V2.set_queue_attribute attrs u a v true).2.1 = attrs
    ∧ ((V2.set_queue_attribute attrs u a v true).2.2.all (fun e => !e.isWrite)) = true := by
  constructor
  · unfold V2.set_queue_attribute V2.compareAndSet
    dsimp only
    repeat' split
    all_goals first | rfl | simp_all
  · unfold V2.set_queue_attribute V2.compareAndSet
    dsimp only
    repeat' split
    all_goals first | rfl | simp_all

/-- In check mode, folding `updStep` over any attribute catalog preserves the
attribute map and appends only non-mutating calls to the trace. -/
theorem fold_cm
    (setFn : Attrs → String → String → PyVal → Bool → SetAttrResult × Attrs × List Eff)
    (u : String)
    (hf : ∀ attrs a v, (setFn attrs u a v true).2.1 = attrs
          ∧ ((setFn attrs u a v true).2.2.all (fun e => !e.isWrite)) = true)
    (pairs : List (String × PyVal)) :
    ∀ init : Bool × Attrs × List Eff,
      updAttrs (List.foldlM (updStep setFn u true) init pairs) = init.2.1
      ∧ (updTrace (List.foldlM (updStep setFn u true) init pairs)).all (fun e => !e.isWrite)
          = init.2.2.all (fun e => !e.isWrite) := by
  induction pairs with
  | nil =>
    intro init
    constructor <;> rfl
  | cons kv rest ih =>
    intro init
    have h1 := (hf init.2.1 kv.1 kv.2).1
    have h2 := (hf init.2.1 kv.1 kv.2).2
    rcases hs : setFn init.2.1 u kv.1 kv.2 true with ⟨r, attrs1, effs⟩
    rw [hs] at h1 h2
    simp only at h1 h2
    cases r with
    | ok c =>
      have hrec := ih (c || init.1, attrs1, init.2.2 ++ effs)
      rw [List.foldlM_cons] at *
      simp only [updStep, hs, bind, Except.bind] at *
      constructor
      · rw [hrec.1]; exact h1
      · rw [hrec.2]; simp [List.all_append, h2]
    | jsonError =>
      rw [List.foldlM_cons]
      simp only [updStep, hs, bind, Except.bind, updAttrs, updTrace]
      constructor
      · exact h1
      · simp [List.all_append, h1, h2]

/-- In check mode, `update_sqs_queue` (newer variant) preserves the attribute
map and issues no mutating remote call. -/
theorem update_cm_v2 (attrs : Attrs) (u : String) (a1 a2 a3 a4 a5 a6 a7 a8 : PyVal) :
    updAttrs (V2.update_sqs_queue attrs u true a1 a2 a3 a4 a5 a6 a7 a8) = attrs
    ∧ (updTrace (V2.update_sqs_queue attrs u true a1 a2 a3 a4 a5 a6 a7 a8)).all
        (fun e => !e.isWrite) = true := by
  have h := fold_cm V2.set_queue_attribute u
    (fun attrs a v => set_cm_v2 attrs u a v)
    [("VisibilityTimeout", a1), ("MessageRetentionPeriod", a2), ("MaximumMessageSize", a3),
     ("DelaySeconds", a4), ("ReceiveMessageWaitTimeSeconds", a5), ("Policy", a6),
     ("RedrivePolicy", a7), ("ContentBasedDeduplication", a8)]
    (false, attrs, [])
  simpa [V2.update_sqs_queue] using h

/-- Trace form of `update_cm_v2`, keyed on the run's result value. -/
theorem upd_result_all_nonwrite (attrs : Attrs) (u : String)
    (a1 a2 a3 a4 a5 a6 a7 a8 : PyVal)
    (r : Except (Attrs × List Eff) (Bool × Attrs × List Eff))
    (heq : V2.update_sqs_queue attrs u true a1 a2 a3 a4 a5 a6 a7 a8 = r) :
    (updTrace r).all (fun e => !e.isWrite) = true := by
  subst heq
  exact (update_cm_v2 attrs u a1 a2 a3 a4 a5 a6 a7 a8).2

/-- In check mode, the present path issues no mutating remote call. -/
theorem create_cm_no_writes (remote : Remote) (p : Params) :
    ((V2.create_or_update_sqs_queue remote p true).2.2.all (fun e => !e.isWrite)) = true := by
  unfold V2.create_or_update_sqs_queue
  dsimp only
  split
  · rename_i attrs0 hl
    split
    · rename_i attrs1 effs hu
      have h := upd_result_all_nonwrite _ _ _ _ _ _ _ _ _ _ _ hu
      simp only [updTrace] at h
      simp only [List.all_cons, Eff.isWrite, Bool.not_false, Bool.true_and]
      exact h
    · rename_i c attrs1 effs hu
      have h := upd_result_all_nonwrite _ _ _ _ _ _ _ _ _ _ _ hu
      simp only [updTrace] at h
      split
      · simp only [List.all_cons, Eff.isWrite, Bool.not_false, Bool.true_and]
        exact h
      · simp_all
  · rename_i hl
    split
    · rfl
    · simp_all

/-- In check mode, the absent (delete) path issues no mutating remote call. -/
theorem delete_cm_no_writes (remote : Remote) (p : Params) :
    ((V2.delete_sqs_queue remote p true).2.2.all (fun e => !e.isWrite)) = true := by
  unfold V2.delete_sqs_queue
  repeat' split
  all_goals first | rfl | simp_all

/-- Claim C1 (evidence of the code bug): in the newer variant's comparator,
a desired redrive policy and a remote raw string that denote the *same* JSON
object (identical canonical serializations) are reported as different, and a
write is issued, because line 314 lowercases only the desired side
(`str(value).lower()`) after the sort-keys serialization, while the
re-serialized remote side keeps its case.  The claim says this comparison
must report not-different. -/
theorem sqs_equal_redrive_json_marked_different :
    V2.set_queue_attribute [("RedrivePolicy", "\x7b\"maxReceiveCount\": 5\x7d")] "u"
      "RedrivePolicy" (.pyDict rpDesired) false
    = (.ok true, [("RedrivePolicy", "\x7b\"maxReceiveCount\": 5\x7d")],
       [.getQueueAttributes "u" ["RedrivePolicy"],
        .setQueueAttributes "u" "RedrivePolicy" "\x7b\"maxReceiveCount\": 5\x7d"]) := rfl

/-- Claim C2 (evidence of the code bug): reconciliation is not idempotent.
Synchronizing `redrive_policy = dict(maxReceiveCount=5)` against an empty
queue reports changed and writes the canonical JSON; running the identical
synchronization again over the resulting remote state *still* reports
changed (and rewrites), because the comparator lowercases the desired
serialization but the stored raw string keeps its case. -/
theorem sqs_update_twice_not_idempotent :
    updChanged (updOnce []) = some true
      ∧ updChanged (updOnce (updAttrs (updOnce []))) = some true := ⟨rfl, rfl⟩

/-- Claim C3: with the check_mode (dry-run) flag set, the module dispatch
never issues a mutating remote call — no `set_queue_attributes`, no
`create_queue`, no `delete_queue` — for any parameters and any remote state;
the trace holds reads only. -/
theorem sqs_check_mode_issues_no_writes (remote : Remote) (p : Params) :
    ((V2.main_dispatch remote p true).2.2.all (fun e => !e.isWrite)) = true := by
  unfold V2.main_dispatch
  split
  · exact create_cm_no_writes remote p
  · split
    · exact delete_cm_no_writes remote p
    · rfl

/-- Claim C4 (counterexample): a desired value of `0` is *not* treated as
absent: the guard `if not value and value != 0` lets `0` through (`0 != 0`
is false), so the comparator reads the remote value, reports a difference
against `'30'`, and issues a write — it does not return `False` without
reads or writes as the claim states. -/
theorem sqs_zero_desired_not_skipped :
    V2.set_queue_attribute [("VisibilityTimeout", "30")] "u" "VisibilityTimeout"
      (.pyInt 0) false
    = (.ok true, [("VisibilityTimeout", "0")],
       [.getQueueAttributes "u" ["VisibilityTimeout"],
        .setQueueAttributes "u" "VisibilityTimeout" "0"]) := rfl

/-- Claim C4 (amended): `set_queue_attribute` skips an attribute — returning
`False` immediately with no read and no write — exactly when the desired
value is falsy *and* unequal to `0` (so `None` and empty documents are
skipped), while `0` and `False` fail that guard (`False == 0` in Python)
and are compared and applied like any other value. -/
theorem sqs_falsy_skip_guard (attrs : Attrs) (u a : String) (v : PyVal) (cm : Bool) :
    ((V2.set_queue_attribute attrs u a v cm
        = ((SetAttrResult.ok false), attrs, ([] : List Eff)))
      ↔ (!v.truthy && v.neZero) = true)
    ∧ (!(PyVal.pyInt 0).truthy && (PyVal.pyInt 0).neZero) = false
    ∧ (!(PyVal.pyBool false).truthy && (PyVal.pyBool false).neZero) = false
    ∧ (!PyVal.pyNone.truthy && PyVal.pyNone.neZero) = true := by
  refine ⟨?_, rfl, rfl, rfl⟩
  constructor
  · intro h
    by_contra hg
    have h3 := congrArg (fun t => t.2.2) h
    revert h3
    unfold V2.set_queue_attribute V2.compareAndSet
    dsimp only
    repeat' split
    all_goals simp_all
  · intro hg
    unfold V2.set_queue_attribute
    simp [hg]

/-- Claim C5 (evidence of the code bug): on the present path in check mode
with the queue absent, the module exits successfully but its result carries
*no* `changed` key at all (Ansible then reports changed=false), instead of
the claimed changed=true; it does correctly refrain from creating. -/
theorem sqs_check_mode_absent_no_changed_key :
    V2.create_or_update_sqs_queue [] { name := "orders" } true
    = (.exitJson { name := "orders" }, [], [.getQueueUrl "orders"]) := rfl

/-- Claim C6 (evidence of the code bug): deleting a queue that does not
exist ends in `fail_json`, not in a successful changed=false result:
`get_queue_url` raises `QueueDoesNotExist` (a `ClientError` subclass), the
`except` clause catches it and fails the module; the
`else: result['changed'] = False` branch is dead code.  No delete call is
issued. -/
theorem sqs_delete_missing_queue_fails_json :
    V2.delete_sqs_queue [] { name := "missing", state := "absent" } false
    = (.failJson { name := "missing" }, [], [.getQueueUrl "missing"]) := rfl

/-- Claim C7 (counterexample): a non-empty remote raw string that fails to
parse as JSON is *not* treated as "no existing document": `json.loads`
raises an uncaught `JSONDecodeError` (the surrounding `except` clauses
catch only `ClientError`), modelled by the `jsonError` result. -/
theorem sqs_unparsable_policy_crashes :
    V2.set_queue_attribute [("Policy", "not json")] "u" "Policy"
      (.pyDict (Json.objOf [("a", .num 1)])) false
    = (.jsonError, [("Policy", "not json")], [.getQueueAttributes "u" ["Policy"]]) := rfl

/-- Claim C7 (amended): for a JSON-document attribute with a truthy desired
value, whenever the observed remote raw string is non-empty and fails to
parse as JSON, `set_queue_attribute` raises the uncaught decode error —
in or out of check mode — rather than proceeding as if the attribute were
unset; only an empty/missing raw string is treated as no existing
document. -/
theorem sqs_unparsable_existing_raises (attrs : Attrs) (u a : String) (v : PyVal)
    (cm : Bool) (s : String)
    (ha : a = "Policy" ∨ a = "RedrivePolicy")
    (hv : v.truthy = true)
    (hlook : List.lookup a attrs = some s)
    (hs : s ≠ "")
    (hp : loads s = Option.none) :
    V2.set_queue_attribute attrs u a v cm
      = (.jsonError, attrs, [.getQueueAttributes u [a]]) := by
  have hguard : (!v.truthy && v.neZero) = false := by simp [hv]
  have hattr : (a == "Policy" || a == "RedrivePolicy") = true := by
    rcases ha with h | h <;> simp [h]
  unfold V2.set_queue_attribute
  simp [hguard, hattr, hlook, hs, hp]

/-- Witness for `sqs_unparsable_existing_raises` at a concrete input. -/
theorem sqs_unparsable_existing_raises_witness :
    V2.set_queue_attribute [("RedrivePolicy", "oops")] "u" "RedrivePolicy"
      (.pyDict (Json.objOf [("a", .num 1)])) true
      = (.jsonError, [("RedrivePolicy", "oops")],
         [.getQueueAttributes "u" ["RedrivePolicy"]]) :=
  sqs_unparsable_existing_raises [("RedrivePolicy", "oops")] "u" "RedrivePolicy"
    (.pyDict (Json.objOf [("a", .num 1)])) true "oops"
    (Or.inr rfl) rfl rfl (by decide) rfl

/-- Claim C8 (counterexample): a caller-supplied name that already ends in
`.fifo` gets the suffix appended *again*: the queue resolved and created is
`myq.fifo.fifo`, so the suffix is not "exactly once". -/
theorem sqs_fifo_suffix_duplicated :
    (V2.create_or_update_sqs_queue [] { name := "myq.fifo", queue_type := "fifo" }
        true).2.2.head?
      = some (.getQueueUrl "myq.fifo.fifo")
    ∧ "myq.fifo.fifo" = "myq.fifo" ++ ".fifo"
    ∧ "myq.fifo.fifo" ≠ "myq.fifo" := ⟨rfl, rfl, by decide⟩

/-- Claim C8 (amended): for queue_type fifo the name used for resolution
(and creation) is always exactly the caller-supplied name with `.fifo`
appended unconditionally — line 212 has no already-suffixed check, so a name
ending in `.fifo` is double-suffixed. -/
theorem sqs_fifo_suffix_always_appended (remote : Remote) (p : Params) (cm : Bool)
    (h : p.queue_type = "fifo") :
    (V2.create_or_update_sqs_queue remote p cm).2.2.head?
      = some (.getQueueUrl (p.name ++ ".fifo")) := by
  unfold V2.create_or_update_sqs_queue V2.finalRead
  dsimp only
  simp only [h]
  repeat' split
  all_goals simp_all

/-- Witness for `sqs_fifo_suffix_always_appended` at a concrete input. -/
theorem sqs_fifo_suffix_always_appended_witness :
    (V2.create_or_update_sqs_queue [] { name := "orders", queue_type := "fifo" }
        true).2.2.head?
      = some (.getQueueUrl ("orders" ++ ".fifo")) :=
  sqs_fifo_suffix_always_appended [] { name := "orders", queue_type := "fifo" } true rfl

/-- Claim C9 (counterexample): supplying the FIFO-only
`fifo_content_based_deduplication` flag with queue_type standard is *not*
rejected before any remote call: the run issues `get_queue_url` (and goes on
to create and read back the queue) and exits successfully. -/
theorem sqs_standard_dedup_not_rejected :
    ((V2.create_or_update_sqs_queue []
        { name := "orders", fifo_content_based_deduplication := true } false).2.2.head?
      = some (.getQueueUrl "orders"))
    ∧ ((V2.create_or_update_sqs_queue []
        { name := "orders", fifo_content_based_deduplication := true } false).1
      = .exitJson { name := "orders", changed := some true,
                    queue_arn := some "arn:aws:sqs:region:acct:orders",
                    default_visibility_timeout := some "30",
                    message_retention_period := some "345600",
                    maximum_message_size := some "262144",
                    delivery_delay := some "0",
                    receive_message_wait_time := some "0" }) := ⟨rfl, rfl⟩

/-- Claim C9 (amended): for queue_type standard the deduplication flag is
silently ignored — the entire invocation (outcome, remote state, and call
trace) is identical whatever boolean the caller supplies, because the flag is
only read inside the fifo branch and `update_sqs_queue` receives its default
`None` for the attribute. -/
theorem sqs_standard_dedup_ignored (remote : Remote) (p : Params) (cm b : Bool)
    (h : p.queue_type = "standard") :
    V2.create_or_update_sqs_queue remote p cm
      = V2.create_or_update_sqs_queue remote
          { p with fifo_content_based_deduplication := b } cm := by
  unfold V2.create_or_update_sqs_queue
  simp [h]

/-- Witness for `sqs_standard_dedup_ignored` at a concrete input. -/
theorem sqs_standard_dedup_ignored_witness :
    V2.create_or_update_sqs_queue [] { name := "orders" } false
      = V2.create_or_update_sqs_queue []
          { name := "orders", fifo_content_based_deduplication := true } false :=
  sqs_standard_dedup_ignored [] { name := "orders" } false true rfl

/-- Claim C10: in the older variant, the absent path always raises the
uncaught `NameError` from calling the undefined `delete_sqs_queue` (its
definition is commented out), before any remote queue call: the variant can
never delete a queue nor report changed=false on the delete path. -/
theorem sqs_v1_absent_always_name_error (remote : Remote) (p : Params) (cm : Bool)
    (h : p.state = "absent") :
    V1.main_dispatch remote p cm = (.nameError, remote, []) := by
  unfold V1.main_dispatch
  simp [h]

/-- Witness for `sqs_v1_absent_always_name_error` at a concrete input. -/
theorem sqs_v1_absent_always_name_error_witness :
    V1.main_dispatch [("q", [("VisibilityTimeout", "30")])]
      { name := "q", state := "absent" } false
    = (.nameError, [("q", [("VisibilityTimeout", "30")])], []) :=
  sqs_v1_absent_always_name_error [("q", [("VisibilityTimeout", "30")])]
    { name := "q", state := "absent" } false rfl
